import Mathlib

/-!
Shallow embedding of the Orchaim payment-orchestration core
(processor registry, fallback router, decision engine, audit logger,
and the FastAPI payment loop), together with theorems checking the
natural-language specification against the embedded code.

Python dictionaries are modelled as association lists that preserve
insertion order; Python floats are modelled as rationals; Python's
stable `list.sort` / `sorted` is modelled by a stable insertion sort.
-/

/-- Stable insertion of one element: `x` is placed before the first
element `y` with `le x y` (ties keep the element inserted later, i.e.
the one occurring earlier in the original list, first). -/
def insertStable (le : α → α → Bool) (x : α) : List α → List α
  | [] => [x]
  | y :: ys => if le x y then x :: y :: ys else y :: insertStable le x ys

/-- Stable sort by a Boolean comparison, modelling Python's stable
`list.sort(key=...)` / `sorted(..., key=...)`. -/
def sortStable (le : α → α → Bool) : List α → List α
  | [] => []
  | x :: xs => insertStable le x (sortStable le xs)

namespace ProcessorRegistry

/-- Status enum of `processor_registry.ProcessorStatus`. -/
inductive ProcessorStatus where
  | healthy
  | degraded
  | frozen
  | maintenance
deriving DecidableEq

/-- Health metrics of `processor_registry.ProcessorHealthMetrics`
(the fields `get_fallback_chain` reads, plus the 24h failure count). -/
structure ProcessorHealthMetrics where
  success_rate : ℚ
  avg_response_time : ℚ
  failure_count_24h : ℕ
deriving DecidableEq

/-- Processor record of `processor_registry.PaymentProcessor`
(the fields the fallback-chain computation reads). -/
structure PaymentProcessor where
  id : String
  status : ProcessorStatus
  health : ProcessorHealthMetrics
  fallback_priority : Int
deriving DecidableEq

/-- The registry's `self.processors` dictionary: an insertion-ordered
association list from processor id to record. -/
abbrev Registry := List (String × PaymentProcessor)

/-- Lexicographic `≤` on integer-rational-rational triples, as Python
compares key tuples. -/
def lex3LE (a b : Int × ℚ × ℚ) : Bool :=
  decide (a.1 < b.1) ||
    (decide (a.1 = b.1) &&
      (decide (a.2.1 < b.2.1) ||
        (decide (a.2.1 = b.2.1) && decide (a.2.2 ≤ b.2.2))))

/-- The Python sort key of `get_fallback_chain`:
`(p.fallback_priority, -p.health.success_rate, p.health.avg_response_time)`. -/
def pySortKey (p : PaymentProcessor) : Int × ℚ × ℚ :=
  (p.fallback_priority, -p.health.success_rate, p.health.avg_response_time)

/-- Comparison of two processors by their Python sort keys. -/
def sortKeyLE (p q : PaymentProcessor) : Bool :=
  lex3LE (pySortKey p) (pySortKey q)

/-- The filtered-and-sorted processor records of
`ProcessorRegistry.get_fallback_chain`: keep entries whose key differs
from `failed_processor` and whose status is not FROZEN, then stable-sort
by the key above. -/
def get_fallback_chain_procs (processors : Registry) (failed_processor : String) :
    List PaymentProcessor :=
  let available := (processors.filter
    (fun pr => decide (pr.1 ≠ failed_processor) && decide (pr.2.status ≠ ProcessorStatus.frozen))).map
      Prod.snd
  sortStable sortKeyLE available

/-- `ProcessorRegistry.get_fallback_chain`: the ids of the filtered and
sorted records. -/
def get_fallback_chain (processors : Registry) (failed_processor : String) : List String :=
  (get_fallback_chain_procs processors failed_processor).map (fun p => p.id)

/-- Boolean comparison of two strings by their character lists
(lexicographic on code points); used only by the spec-side comparator. -/
def charListLE : List Char → List Char → Bool
  | [], _ => true
  | _ :: _, [] => false
  | a :: as, b :: bs =>
    decide (a.toNat < b.toNat) || (decide (a.toNat = b.toNat) && charListLE as bs)

/-- Modelled from the spec: the spec's tie-break comparator — the same
three-part key, with remaining ties broken by processor id. -/
def sortKeySpecLE (p q : PaymentProcessor) : Bool :=
  if pySortKey p = pySortKey q then charListLE p.id.toList q.id.toList
  else sortKeyLE p q

/-- Modelled from the spec: `get_fallback_chain` as the spec words it,
with ties broken by processor id (for comparison with the code version). -/
def get_fallback_chain_spec (processors : Registry) (failed_processor : String) : List String :=
  let available := (processors.filter
    (fun pr => decide (pr.1 ≠ failed_processor) && decide (pr.2.status ≠ ProcessorStatus.frozen))).map
      Prod.snd
  (sortStable sortKeySpecLE available).map (fun p => p.id)

/-- The Stripe record built by `ProcessorRegistry._initialize_processors`. -/
def stripeProcessor : PaymentProcessor :=
  { id := "stripe", status := ProcessorStatus.healthy,
    health := { success_rate := 987/1000, avg_response_time := 245, failure_count_24h := 3 },
    fallback_priority := 1 }

/-- The PayPal record built by `ProcessorRegistry._initialize_processors`. -/
def paypalProcessor : PaymentProcessor :=
  { id := "paypal", status := ProcessorStatus.healthy,
    health := { success_rate := 983/1000, avg_response_time := 312, failure_count_24h := 7 },
    fallback_priority := 2 }

/-- The Visa record built by `ProcessorRegistry._initialize_processors`. -/
def visaProcessor : PaymentProcessor :=
  { id := "visa", status := ProcessorStatus.healthy,
    health := { success_rate := 995/1000, avg_response_time := 189, failure_count_24h := 1 },
    fallback_priority := 3 }

/-- The registry as `_initialize_processors` builds it (insertion order
stripe, paypal, visa). -/
def initial_processors : Registry :=
  [("stripe", stripeProcessor), ("paypal", paypalProcessor), ("visa", visaProcessor)]

/-- The PayPal record after an operator put it into MAINTENANCE. -/
def paypalMaintenance : PaymentProcessor :=
  { id := "paypal", status := ProcessorStatus.maintenance,
    health := { success_rate := 983/1000, avg_response_time := 312, failure_count_24h := 7 },
    fallback_priority := 2 }

/-- The initial registry with PayPal put into MAINTENANCE by an operator. -/
def maintenanceRegistry : Registry :=
  [("stripe", stripeProcessor),
   ("paypal", paypalMaintenance),
   ("visa", visaProcessor)]

/-- A registry whose two processors share the full sort key; "b" was
registered before "a". -/
def tieRegistry : Registry :=
  [("b", { id := "b", status := ProcessorStatus.healthy,
           health := { success_rate := 1, avg_response_time := 100, failure_count_24h := 0 },
           fallback_priority := 1 }),
   ("a", { id := "a", status := ProcessorStatus.healthy,
           health := { success_rate := 1, avg_response_time := 100, failure_count_24h := 0 },
           fallback_priority := 1 })]

end ProcessorRegistry

namespace FallbackRouter

/-- Decision-type enum of `gpt5_fallback_router.RoutingDecisionType`. -/
inductive RoutingDecisionType where
  | primary
  | fallback
  | emergency
  | recovery
deriving DecidableEq

/-- Business-priority enum of `gpt5_fallback_router.BusinessPriority`. -/
inductive BusinessPriority where
  | cost_optimization
  | reliability_first
  | speed_critical
  | risk_minimization
  | compliance_focused
deriving DecidableEq

/-- Transaction fields of `StripeTransaction` that the router reads
(`amount` is in cents). -/
structure StripeTransaction where
  id : String
  amount : ℤ
deriving DecidableEq

/-- Routing context of `gpt5_fallback_router.RoutingContext`. -/
structure RoutingContext where
  transaction : StripeTransaction
  failed_processors : List String
  business_priority : BusinessPriority
  urgency_level : String
  previous_routing_attempts : ℕ
  max_allowed_attempts : ℕ
deriving DecidableEq

/-- Routing decision of `gpt5_fallback_router.GPT5RoutingDecision`
(the scalar fields; the free-text analysis fields are kept as strings
or dropped as opaque). -/
structure GPT5RoutingDecision where
  decision_id : String
  selected_processor : String
  confidence_score : ℚ
  decision_type : RoutingDecisionType
  reasoning_effort : String
  verbosity : String
  processing_time_ms : ℕ
  tokens_used : ℕ
  raw_gpt5_response : String
  fallback_depth : ℕ
deriving DecidableEq

/-- The hard-coded candidate list used by `_extract_selected_processor`
and `_create_emergency_fallback_decision`. -/
def processors_list : List String := ["stripe", "paypal", "visa", "square"]

/-- Python's regex word character `\w` for the ASCII texts involved:
alphanumeric or underscore. -/
def isWordChar (c : Char) : Bool := c.isAlphanum || c == '_'

/-- Python's regex whitespace `\s`. -/
def isSpaceChar (c : Char) : Bool :=
  c == ' ' || c == '\t' || c == '\n' || c == '\r' || c == '\x0b' || c == '\x0c'

/-- Whether `pat` is a leading run of `l`. -/
def startsWithChars : List Char → List Char → Bool
  | [], _ => true
  | _ :: _, [] => false
  | p :: ps, c :: cs => p == c && startsWithChars ps cs

/-- Whether `pat` occurs contiguously anywhere in `l`
(Python's `pat in s`). -/
def containsSub (pat : List Char) : List Char → Bool
  | [] => startsWithChars pat []
  | c :: cs => startsWithChars pat (c :: cs) || containsSub pat cs

/-- Match of the regex `selected processor:?\s*(\w+)` anchored at the
start of `s`, returning the captured word. The character classes for
`:?`, `\s*` and `\w+` are pairwise disjoint, so the greedy match needs
no backtracking. -/
def matchSelectedAt (s : List Char) : Option (List Char) :=
  if startsWithChars "selected processor".toList s then
    let rest := s.drop "selected processor".toList.length
    let rest₂ := if rest.head? = some ':' then rest.tail else rest
    let rest₃ := rest₂.dropWhile isSpaceChar
    let word := rest₃.takeWhile isWordChar
    if word.isEmpty then none else some word
  else none

/-- `re.search` of `selected processor:?\s*(\w+)`: the match at the
leftmost feasible start position. -/
def searchSelected : List Char → Option (List Char)
  | [] => none
  | c :: cs =>
    match matchSelectedAt (c :: cs) with
    | some w => some w
    | none => searchSelected cs

/-- `GPT5FallbackRouter._extract_selected_processor`: look for an
explicit `selected processor:` capture that names a known processor,
otherwise the first processor of the fixed list mentioned anywhere in
the lowercased response, otherwise the default `"stripe"`. -/
def extract_selected_processor (response : String) : String :=
  let response_lower := response.toList.map Char.toLower
  let fromLoop : String :=
    match processors_list.find? (fun p => containsSub p.toList response_lower) with
    | some p => p
    | none => "stripe"
  match searchSelected response_lower with
  | some selected =>
    if String.mk selected ∈ processors_list then String.mk selected else fromLoop
  | none => fromLoop

/-- Match of the regex fragment `\d*\.?\d+` anchored at the start of
`s`, returning the matched characters (with Python's backtracking:
a trailing dot with no following digit is not consumed). -/
def matchNumberAt (s : List Char) : Option (List Char) :=
  let d₁ := s.takeWhile Char.isDigit
  match s.dropWhile Char.isDigit with
  | '.' :: r =>
    let d₂ := r.takeWhile Char.isDigit
    if !d₂.isEmpty then some (d₁ ++ '.' :: d₂)
    else if !d₁.isEmpty then some d₁ else none
  | _ => if !d₁.isEmpty then some d₁ else none

/-- Numeric value of a list of digits. -/
def digitsToNat (l : List Char) : ℕ :=
  l.foldl (fun acc c => 10 * acc + (c.toNat - 48)) 0

/-- Value of a `\d*\.?\d+` match as a rational (Python's `float(...)`
on the matched text, exact for these decimal strings). -/
def numberValue (w : List Char) : ℚ :=
  let intPart := w.takeWhile Char.isDigit
  match w.dropWhile Char.isDigit with
  | '.' :: frac => (digitsToNat intPart : ℚ) + (digitsToNat frac : ℚ) / (10 ^ frac.length)
  | _ => (digitsToNat intPart : ℚ)

/-- Match of `confidence:?\s*(\d*\.?\d+)` anchored at the start of `s`. -/
def matchConfidenceAt (s : List Char) : Option (List Char) :=
  if startsWithChars "confidence".toList s then
    let rest := s.drop "confidence".toList.length
    let rest₂ := if rest.head? = some ':' then rest.tail else rest
    matchNumberAt (rest₂.dropWhile isSpaceChar)
  else none

/-- Leftmost match of `confidence:?\s*(\d*\.?\d+)` (the first element
of `re.findall`). -/
def searchConfidence : List Char → Option (List Char)
  | [] => none
  | c :: cs =>
    match matchConfidenceAt (c :: cs) with
    | some w => some w
    | none => searchConfidence cs

/-- Match of `(\d+)%\s*confidence` anchored at the start of `s`. -/
def matchPercentAt (s : List Char) : Option (List Char) :=
  let d := s.takeWhile Char.isDigit
  if d.isEmpty then none
  else
    match s.dropWhile Char.isDigit with
    | '%' :: r =>
      if startsWithChars "confidence".toList (r.dropWhile isSpaceChar) then some d else none
    | _ => none

/-- Leftmost match of `(\d+)%\s*confidence`. -/
def searchPercent : List Char → Option (List Char)
  | [] => none
  | c :: cs =>
    match matchPercentAt (c :: cs) with
    | some w => some w
    | none => searchPercent cs

/-- The lazy `.*?(\d*\.?\d+)` remainder of the third confidence
pattern: the first number reachable without crossing a newline
(Python's `.` does not match a newline). -/
def findNumberSameLine : List Char → Option (List Char)
  | [] => none
  | c :: cs =>
    match matchNumberAt (c :: cs) with
    | some w => some w
    | none => if c == '\n' then none else findNumberSameLine cs

/-- Match of `confidence.*?(\d*\.?\d+)` anchored at the start of `s`. -/
def matchLazyConfidenceAt (s : List Char) : Option (List Char) :=
  if startsWithChars "confidence".toList s then
    findNumberSameLine (s.drop "confidence".toList.length)
  else none

/-- Leftmost match of `confidence.*?(\d*\.?\d+)`. -/
def searchLazyConfidence : List Char → Option (List Char)
  | [] => none
  | c :: cs =>
    match matchLazyConfidenceAt (c :: cs) with
    | some w => some w
    | none => searchLazyConfidence cs

/-- `GPT5FallbackRouter._extract_confidence_score`: the three regex
patterns in order on the lowercased response, then the keyword
fallbacks, then the default `0.75`; a numeric value above 1 is read as
a percentage, and the result is clamped to `[0, 1]`. -/
def extract_confidence_score (response : String) : ℚ :=
  let lower := response.toList.map Char.toLower
  let fromPatterns : Option (List Char) :=
    match searchConfidence lower with
    | some w => some w
    | none =>
      match searchPercent lower with
      | some w => some w
      | none => searchLazyConfidence lower
  match fromPatterns with
  | some w =>
    let value := numberValue w
    let value := if 1 < value then value / 100 else value
    min 1 (max 0 value)
  | none =>
    if containsSub "high confidence".toList lower then 9/10
    else if containsSub "medium confidence".toList lower then 7/10
    else if containsSub "low confidence".toList lower then 1/2
    else 3/4

/-- `GPT5FallbackRouter._determine_decision_type`. -/
def determine_decision_type (routing_context : RoutingContext) : RoutingDecisionType :=
  if routing_context.previous_routing_attempts = 0 then RoutingDecisionType.primary
  else if routing_context.previous_routing_attempts <
      routing_context.max_allowed_attempts - 1 then RoutingDecisionType.fallback
  else RoutingDecisionType.emergency

/-- `GPT5FallbackRouter._parse_routing_decision`: build the structured
decision from the raw oracle response text. -/
def parse_routing_decision (raw_response : String) (routing_context : RoutingContext)
    (reasoning_effort verbosity : String) (decision_type : RoutingDecisionType)
    (processing_time tokens_used : ℕ) : GPT5RoutingDecision :=
  { decision_id := "route_",
    selected_processor := extract_selected_processor raw_response,
    confidence_score := extract_confidence_score raw_response,
    decision_type := decision_type,
    reasoning_effort := reasoning_effort,
    verbosity := verbosity,
    processing_time_ms := processing_time,
    tokens_used := tokens_used,
    raw_gpt5_response := raw_response,
    fallback_depth := routing_context.previous_routing_attempts }

/-- `GPT5FallbackRouter._create_emergency_fallback_decision`: pick the
first processor of the fixed list that is not in the failed list
(`"stripe"` as last resort), with confidence 0.6 and EMERGENCY type. -/
def create_emergency_fallback_decision (routing_context : RoutingContext)
    (error : String) : GPT5RoutingDecision :=
  let available_processors := ["stripe", "paypal", "visa", "square"]
  let available :=
    available_processors.filter (fun p => decide (p ∉ routing_context.failed_processors))
  let selected := match available with
    | [] => "stripe"
    | p :: _ => p
  { decision_id := "emergency_",
    selected_processor := selected,
    confidence_score := 6/10,
    decision_type := RoutingDecisionType.emergency,
    reasoning_effort := "emergency",
    verbosity := "low",
    processing_time_ms := 100,
    tokens_used := 0,
    raw_gpt5_response := "ERROR: " ++ error,
    fallback_depth := routing_context.previous_routing_attempts }

/-- `GPT5FallbackRouter.route_payment_with_fallback`: the oracle call
either yields a raw response and a token count, or fails (exception or
timeout); any failure is absorbed into the emergency fallback decision
instead of being raised to the caller. -/
def route_payment_with_fallback (routing_context : RoutingContext)
    (reasoning_effort verbosity : String)
    (oracle_outcome : Except String (String × ℕ)) : GPT5RoutingDecision :=
  match oracle_outcome with
  | Except.ok (raw_response, tokens) =>
    let decision_type := determine_decision_type routing_context
    parse_routing_decision raw_response routing_context reasoning_effort verbosity
      decision_type 0 tokens
  | Except.error e => create_emergency_fallback_decision routing_context e

/-- A concrete routing context with no prior failures. -/
def contextNoFailures : RoutingContext :=
  { transaction := { id := "txn_small_001", amount := 7500 },
    failed_processors := [],
    business_priority := BusinessPriority.reliability_first,
    urgency_level := "normal",
    previous_routing_attempts := 0,
    max_allowed_attempts := 3 }

/-- A concrete routing context in which PayPal has already failed. -/
def contextPaypalFailed : RoutingContext :=
  { transaction := { id := "txn_medium_001", amount := 350000 },
    failed_processors := ["paypal"],
    business_priority := BusinessPriority.reliability_first,
    urgency_level := "high",
    previous_routing_attempts := 1,
    max_allowed_attempts := 3 }

end FallbackRouter

namespace IntelligentRouter

/-- Per-processor health entry of `GPT5Router.processor_health`. -/
structure ProcessorHealth where
  frozen : Bool
  last_success : Option ℚ
  failure_count : ℕ
deriving DecidableEq

/-- The `processor_health` dictionary: insertion-ordered association
list from processor id to entry. -/
abbrev HealthMap := List (String × ProcessorHealth)

/-- The health map as `GPT5Router.__init__` builds it. -/
def initial_health : HealthMap :=
  [("stripe", { frozen := false, last_success := none, failure_count := 0 }),
   ("paypal", { frozen := false, last_success := none, failure_count := 0 }),
   ("visa", { frozen := false, last_success := none, failure_count := 0 })]

/-- `GPT5Router.record_success`: if the id is a key of the map, set its
`last_success` to the current time and reset its `failure_count` to 0;
an unknown id is a no-op. -/
def record_success (processor_health : HealthMap) (processor_id : String) (now : ℚ) :
    HealthMap :=
  processor_health.map (fun kv =>
    if kv.1 = processor_id then
      (kv.1, { kv.2 with last_success := some now, failure_count := 0 })
    else kv)

/-- One entry of the `available_processors` list that
`main.process_payment` passes to the router: the id, fee percentage,
and success-rate metric are the fields `_select_best_processor` reads. -/
structure ProcessorInfo where
  id : String
  fee_percentage : ℚ
  success_rate : ℚ
deriving DecidableEq

/-- Routing decision of `intelligent_router.RoutingDecision` (the
fields `main.process_payment` reads). -/
structure RoutingDecision where
  selected_processor : String
  confidence : ℚ
  fallback_chain : List String
deriving DecidableEq

/-- Sort comparison of `_select_best_processor`: the Python key
`(-success_rate, fee_percentage)`. -/
def bestProcessorLE (p q : ProcessorInfo) : Bool :=
  decide (-p.success_rate < -q.success_rate) ||
    (decide (-p.success_rate = -q.success_rate) &&
      decide (p.fee_percentage ≤ q.fee_percentage))

/-- `GPT5Router._select_best_processor`: drop the processors with a
recent non-permanent failure (keeping all of them when that empties the
list), stable-sort by success rate descending then fee ascending, and
take the first id — `"stripe"` when the list is empty. -/
def select_best_processor (processors : List ProcessorInfo) (failed_ids : List String) :
    String :=
  let available := processors.filter (fun p => decide (p.id ∉ failed_ids))
  let available := if available.isEmpty then processors else available
  match sortStable bestProcessorLE available with
  | [] => "stripe"
  | p :: _ => p.id

/-- Sort key of `_generate_fallback_chain`'s large-amount re-ordering:
`key=lambda p: p == "visa"`, with `False` before `True`. -/
def visaKeyLE (p q : String) : Bool := !(p == "visa") || (q == "visa")

/-- `GPT5Router._generate_fallback_chain`: the fixed processor list
without the primary; for amounts above 1000 the stable sort by the
`p == "visa"` key moves `"visa"` to the end. -/
def generate_fallback_chain (primary : String) (amount : ℚ) : List String :=
  let all_processors := ["stripe", "paypal", "visa"]
  let fallbacks := all_processors.filter (fun p => decide (p ≠ primary))
  if 1000 < amount then sortStable visaKeyLE fallbacks else fallbacks

/-- `GPT5Router._call_gpt5_reasoning`, the simulated oracle behind
`make_routing_decision`: when the primary processor is frozen it
returns the hard-coded PayPal decision with chain
`["paypal", "visa"]` — or the Visa decision with `["visa"]` when
PayPal is absent; otherwise it selects the best processor and
generates that processor's fallback chain. `failed_ids` are the
processors with a recent non-permanent failure in the router's
history. -/
def call_gpt5_reasoning (processors : List ProcessorInfo) (failed_ids : List String)
    (primary_processor_frozen : Bool) (amount : ℚ) : RoutingDecision :=
  if primary_processor_frozen then
    if "paypal" ∈ processors.map (fun p => p.id) then
      { selected_processor := "paypal", confidence := 95/100,
        fallback_chain := ["paypal", "visa"] }
    else
      { selected_processor := "visa", confidence := 9/10,
        fallback_chain := ["visa"] }
  else
    let best_processor := select_best_processor processors failed_ids
    { selected_processor := best_processor, confidence := 85/100,
      fallback_chain := generate_fallback_chain best_processor amount }

/-- The `available_processors` list as `main.process_payment` builds it
from the three registered processors with their initial base metrics
(fee 2.9 / 2.9 / 2.4, base success rate 95.0). -/
def mainProcessorInfos : List ProcessorInfo :=
  [{ id := "stripe", fee_percentage := 29/10, success_rate := 95 },
   { id := "paypal", fee_percentage := 29/10, success_rate := 95 },
   { id := "visa", fee_percentage := 24/10, success_rate := 95 }]

end IntelligentRouter

namespace MainApp

/-- Status enum of `processors.base.ProcessorStatus`. -/
inductive BaseProcessorStatus where
  | active
  | inactive
  | maintenance
  | failed
deriving DecidableEq

/-- Payment outcome enum of `processors.base.PaymentStatus`. -/
inductive PaymentStatus where
  | pending
  | processing
  | success
  | failed
  | timeout
  | cancelled
deriving DecidableEq

/-- The keys of `main.processors` (the processor dictionary of the
FastAPI app). -/
def processor_ids : List String := ["stripe", "paypal", "visa"]

/-- One executed payment attempt inside a single `process_payment`
call: the processor it ran against, its outcome, and the set of
processor failures the router has recorded once the attempt is
handled. -/
structure AttemptRecord where
  processor : String
  outcome : PaymentStatus
  recorded_failures_after : List String
deriving DecidableEq

/-- The fallback loop of `main.process_payment`: walk the decision's
fallback chain, executing only known ACTIVE processors, stopping at the
first success; failed fallback attempts record no failure with the
router. -/
def try_fallback_chain (chain : List String) (status : String → BaseProcessorStatus)
    (execute : String → PaymentStatus) (recorded : List String) : List AttemptRecord :=
  match chain with
  | [] => []
  | fallback_id :: rest =>
    if decide (fallback_id ∈ processor_ids) && decide (status fallback_id = BaseProcessorStatus.active) then
      let response := execute fallback_id
      if response = PaymentStatus.success then
        [{ processor := fallback_id, outcome := response, recorded_failures_after := recorded }]
      else
        { processor := fallback_id, outcome := response, recorded_failures_after := recorded } ::
          try_fallback_chain rest status execute recorded
    else try_fallback_chain rest status execute recorded

/-- The attempt history of one `main.process_payment` call: execute the
selected processor (defaulting to `"stripe"` when its id is unknown);
on FAILED or TIMEOUT record the failure with the router — under the
original `routing_decision.selected_processor` id, even when execution
fell back to the stripe default — and walk the fallback chain.
`status` and `execute` abstract the external processor objects and
their outcomes. -/
def process_payment_attempts (selected_processor : String) (fallback_chain : List String)
    (status : String → BaseProcessorStatus) (execute : String → PaymentStatus) :
    List AttemptRecord :=
  let primary := if selected_processor ∈ processor_ids then selected_processor else "stripe"
  let response := execute primary
  if response = PaymentStatus.failed ∨ response = PaymentStatus.timeout then
    let recorded := [selected_processor]
    { processor := primary, outcome := response, recorded_failures_after := recorded } ::
      try_fallback_chain fallback_chain status execute recorded
  else
    [{ processor := primary, outcome := response, recorded_failures_after := [] }]

/-- Modelled from the spec: the claim's growth property — along an
attempt trace, every non-successful attempt strictly enlarges the
recorded failure set relative to the previous attempt. -/
def failedSetStrictlyGrows : List AttemptRecord → Bool
  | [] => true
  | [_] => true
  | a :: b :: rest =>
    (decide (b.outcome = PaymentStatus.success) ||
      decide (a.recorded_failures_after.length < b.recorded_failures_after.length)) &&
    failedSetStrictlyGrows (b :: rest)

end MainApp

namespace DecisionEngine

/-- Effort enum of `gpt5_decision_engine.ReasoningEffort`. -/
inductive ReasoningEffort where
  | minimal
  | low
  | medium
  | high
deriving DecidableEq

/-- Urgency enum of `gpt5_decision_engine.DecisionUrgency`. -/
inductive DecisionUrgency where
  | routine
  | normal
  | elevated
  | critical
deriving DecidableEq

/-- Payment context of `gpt5_decision_engine.PaymentContext` (the
fields the escalation policy reads). -/
structure PaymentContext where
  amount : ℚ
  urgency : DecisionUrgency
  failed_processors : List String
deriving DecidableEq

/-- `GPT5DecisionEngine._determine_reasoning_effort`: the engine-owned
escalation policy. -/
def determine_reasoning_effort (context : PaymentContext) : ReasoningEffort :=
  if context.urgency = DecisionUrgency.routine ∧ context.failed_processors = [] then
    ReasoningEffort.minimal
  else if context.amount < 500 ∧ context.failed_processors.length ≤ 1 then
    ReasoningEffort.low
  else if 5000 < context.amount ∨ 1 < context.failed_processors.length ∨
      context.urgency = DecisionUrgency.elevated then
    ReasoningEffort.high
  else ReasoningEffort.medium

/-- The escalation policy as a function of the failed-list length: the
source reads only the emptiness and the length of
`context.failed_processors`, so the policy factors through `n`. -/
def effort_of_amount_urgency_failures (amount : ℚ) (urgency : DecisionUrgency) (n : ℕ) :
    ReasoningEffort :=
  if urgency = DecisionUrgency.routine ∧ n = 0 then ReasoningEffort.minimal
  else if amount < 500 ∧ n ≤ 1 then ReasoningEffort.low
  else if 5000 < amount ∨ 1 < n ∨ urgency = DecisionUrgency.elevated then ReasoningEffort.high
  else ReasoningEffort.medium

/-- Position of an effort level in the ordinal order
minimal < low < medium < high. -/
def effortRank : ReasoningEffort → ℕ
  | ReasoningEffort.minimal => 0
  | ReasoningEffort.low => 1
  | ReasoningEffort.medium => 2
  | ReasoningEffort.high => 3

/-- Position of an urgency level in the ordinal order
routine < normal < elevated < critical. -/
def urgencyRank : DecisionUrgency → ℕ
  | DecisionUrgency.routine => 0
  | DecisionUrgency.normal => 1
  | DecisionUrgency.elevated => 2
  | DecisionUrgency.critical => 3

/-- A context at elevated urgency with no failures yet. -/
def contextElevated : PaymentContext :=
  { amount := 1000, urgency := DecisionUrgency.elevated, failed_processors := [] }

/-- The same payment after one failure, with urgency escalated from
elevated to critical. -/
def contextCriticalOneFailure : PaymentContext :=
  { amount := 1000, urgency := DecisionUrgency.critical, failed_processors := ["stripe"] }

end DecisionEngine

namespace AuditSystem

/-- Event-type enum of `gpt5_audit_system.AuditEventType`. -/
inductive AuditEventType where
  | payment_routing
  | processor_failure
  | risk_analysis
  | fallback_decision
  | gpt5_reasoning
deriving DecidableEq

/-- Audit event of `gpt5_audit_system.AuditEvent` (timestamps as
rationals; the payload dictionary kept opaque as a string). -/
structure AuditEvent where
  id : String
  timestamp : ℚ
  event_type : AuditEventType
  payment_id : Option String
  processor_id : Option String
  data : String
deriving DecidableEq

/-- `GPT5AuditLogger._log_event`: append the event to the in-memory
event list. -/
def log_event (events : List AuditEvent) (event : AuditEvent) : List AuditEvent :=
  events ++ [event]

/-- The events of one payment, in logging order (the filter inside
`generate_payment_audit_trail`). -/
def payment_events (events : List AuditEvent) (payment_id : String) : List AuditEvent :=
  events.filter (fun e => decide (e.payment_id = some payment_id))

/-- Timestamp comparison used by the trail's `sorted(...)`. -/
def timestampLE (a b : AuditEvent) : Bool := decide (a.timestamp ≤ b.timestamp)

/-- The `complete_timeline` of
`GPT5AuditLogger.generate_payment_audit_trail`: `none` models the
error dictionary returned when the payment has no events; otherwise
the payment's events stable-sorted by timestamp. -/
def generate_payment_audit_trail (events : List AuditEvent) (payment_id : String) :
    Option (List AuditEvent) :=
  let pes := payment_events events payment_id
  if pes.isEmpty then none else some (sortStable timestampLE pes)

/-- A concrete routing-decision audit event. -/
def sampleDecisionEvent : AuditEvent :=
  { id := "audit_000000000001", timestamp := 10, event_type := AuditEventType.payment_routing,
    payment_id := some "pay_demo_001", processor_id := some "stripe",
    data := "routing decision" }

/-- A concrete processor-failure audit event with an earlier timestamp. -/
def sampleFailureEvent : AuditEvent :=
  { id := "audit_000000000000", timestamp := 5, event_type := AuditEventType.processor_failure,
    payment_id := some "pay_demo_001", processor_id := some "stripe",
    data := "processor failure" }

end AuditSystem

/-! Theorems. First the generic facts about the stable sort, then the
claims in order. -/

open ProcessorRegistry FallbackRouter IntelligentRouter MainApp DecisionEngine AuditSystem

theorem insertStable_perm (le : α → α → Bool) (x : α) (l : List α) :
    List.Perm (insertStable le x l) (x :: l) := by
  induction l with
  | nil => simp [insertStable]
  | cons y ys ih =>
    simp only [insertStable]
    by_cases h : le x y = true
    · rw [if_pos h]
    · rw [if_neg h]
      exact (ih.cons y).trans (List.Perm.swap x y ys)

theorem sortStable_perm (le : α → α → Bool) (l : List α) : List.Perm (sortStable le l) l := by
  induction l with
  | nil => simp [sortStable]
  | cons x xs ih =>
    exact (insertStable_perm le x (sortStable le xs)).trans (ih.cons x)

theorem mem_sortStable (le : α → α → Bool) (l : List α) (a : α) :
    a ∈ sortStable le l ↔ a ∈ l :=
  (sortStable_perm le l).mem_iff

theorem length_sortStable (le : α → α → Bool) (l : List α) :
    (sortStable le l).length = l.length :=
  (sortStable_perm le l).length_eq

theorem insertStable_pairwise (le : α → α → Bool)
    (htot : ∀ a b, le a b = true ∨ le b a = true)
    (htrans : ∀ a b c, le a b = true → le b c = true → le a c = true)
    (x : α) (l : List α) (hl : l.Pairwise (fun a b => le a b = true)) :
    (insertStable le x l).Pairwise (fun a b => le a b = true) := by
  induction l with
  | nil => simp [insertStable]
  | cons y ys ih =>
    rw [List.pairwise_cons] at hl
    obtain ⟨hy, hys⟩ := hl
    simp only [insertStable]
    by_cases hxy : le x y = true
    · rw [if_pos hxy]
      rw [List.pairwise_cons]
      refine ⟨?_, List.pairwise_cons.mpr ⟨hy, hys⟩⟩
      intro b hb
      rcases List.mem_cons.mp hb with rfl | hb'
      · exact hxy
      · exact htrans x y b hxy (hy b hb')
    · rw [if_neg hxy]
      rw [List.pairwise_cons]
      refine ⟨?_, ih hys⟩
      intro b hb
      rcases List.mem_cons.mp ((insertStable_perm le x ys).mem_iff.mp hb) with hbx | hb'
      · rw [hbx]
        rcases htot x y with h | h
        · exact absurd h hxy
        · exact h
      · exact hy b hb'

theorem sortStable_pairwise (le : α → α → Bool)
    (htot : ∀ a b, le a b = true ∨ le b a = true)
    (htrans : ∀ a b c, le a b = true → le b c = true → le a c = true)
    (l : List α) : (sortStable le l).Pairwise (fun a b => le a b = true) := by
  induction l with
  | nil => simp [sortStable]
  | cons x xs ih => exact insertStable_pairwise le htot htrans x (sortStable le xs) ih

theorem lex3LE_total (a b : Int × ℚ × ℚ) : lex3LE a b = true ∨ lex3LE b a = true := by
  simp only [lex3LE, Bool.or_eq_true, Bool.and_eq_true, decide_eq_true_eq]
  rcases lt_trichotomy a.1 b.1 with h | h | h
  · exact Or.inl (Or.inl h)
  · rcases lt_trichotomy a.2.1 b.2.1 with hs | hs | hs
    · exact Or.inl (Or.inr ⟨h, Or.inl hs⟩)
    · rcases le_total a.2.2 b.2.2 with hr | hr
      · exact Or.inl (Or.inr ⟨h, Or.inr ⟨hs, hr⟩⟩)
      · exact Or.inr (Or.inr ⟨h.symm, Or.inr ⟨hs.symm, hr⟩⟩)
    · exact Or.inr (Or.inr ⟨h.symm, Or.inl hs⟩)
  · exact Or.inr (Or.inl h)

theorem lex3LE_trans (a b c : Int × ℚ × ℚ)
    (hab : lex3LE a b = true) (hbc : lex3LE b c = true) : lex3LE a c = true := by
  simp only [lex3LE, Bool.or_eq_true, Bool.and_eq_true, decide_eq_true_eq] at hab hbc ⊢
  rcases hab with h₁ | ⟨h₁, h₂⟩
  · rcases hbc with g₁ | ⟨g₁, g₂⟩
    · exact Or.inl (h₁.trans g₁)
    · exact Or.inl (g₁ ▸ h₁)
  · rcases hbc with g₁ | ⟨g₁, g₂⟩
    · exact Or.inl (h₁ ▸ g₁)
    · refine Or.inr ⟨h₁.trans g₁, ?_⟩
      rcases h₂ with h₂ | ⟨h₂, h₃⟩
      · rcases g₂ with g₂ | ⟨g₂, g₃⟩
        · exact Or.inl (h₂.trans g₂)
        · exact Or.inl (g₂ ▸ h₂)
      · rcases g₂ with g₂ | ⟨g₂, g₃⟩
        · exact Or.inl (h₂ ▸ g₂)
        · exact Or.inr ⟨h₂.trans g₂, h₃.trans g₃⟩

theorem sortKeyLE_total (p q : PaymentProcessor) :
    sortKeyLE p q = true ∨ sortKeyLE q p = true :=
  lex3LE_total (pySortKey p) (pySortKey q)

theorem sortKeyLE_trans (p q r : PaymentProcessor)
    (h₁ : sortKeyLE p q = true) (h₂ : sortKeyLE q r = true) : sortKeyLE p r = true :=
  lex3LE_trans (pySortKey p) (pySortKey q) (pySortKey r) h₁ h₂

/-- C1. The fallback chain only drops the single excluded id and FROZEN
processors: every id in the output names a registry entry whose status
is not FROZEN and whose key differs from the excluded id. (Amended from
the claim: MAINTENANCE processors are not excluded by the code.) -/
theorem C1_chain_only_nonfrozen_nonexcluded
    (processors : Registry) (failed_processor pid : String)
    (hmem : pid ∈ get_fallback_chain processors failed_processor) :
    ∃ key proc, (key, proc) ∈ processors ∧ proc.id = pid ∧
      proc.status ≠ ProcessorStatus.frozen ∧ key ≠ failed_processor := by
  simp only [get_fallback_chain, List.mem_map] at hmem
  obtain ⟨proc, hproc, hid⟩ := hmem
  rw [get_fallback_chain_procs, mem_sortStable, List.mem_map] at hproc
  obtain ⟨pr, hpr, hsnd⟩ := hproc
  rw [List.mem_filter, Bool.and_eq_true, decide_eq_true_eq, decide_eq_true_eq] at hpr
  exact ⟨pr.1, proc, by rw [← hsnd]; exact hpr.1, hid, hsnd ▸ hpr.2.2, hpr.2.1⟩

/-- C1 witness: on the initial registry, excluding `"stripe"`, the id
`"paypal"` is in the chain and the theorem applies to it. -/
theorem C1_chain_only_nonfrozen_nonexcluded_witness :
    ∃ key proc, (key, proc) ∈ initial_processors ∧ proc.id = "paypal" ∧
      proc.status ≠ ProcessorStatus.frozen ∧ key ≠ "stripe" :=
  C1_chain_only_nonfrozen_nonexcluded initial_processors "stripe" "paypal" (by decide)

/-- C1 counterexample: with PayPal in MAINTENANCE, the fallback chain
excluding `"stripe"` still lists `"paypal"` — the claim that
Maintenance processors never appear is false on the code. -/
theorem C1_maintenance_not_excluded :
    get_fallback_chain maintenanceRegistry "stripe" = ["paypal", "visa"] ∧
    ("paypal", paypalMaintenance) ∈ maintenanceRegistry ∧
    paypalMaintenance.status = ProcessorStatus.maintenance := by
  refine ⟨by decide, ?_, rfl⟩
  simp [maintenanceRegistry]

/-- C6. The fallback chain is the filtered records stable-sorted by the
key (fallback_priority asc, success_rate desc, avg_response_time asc):
adjacent output records are always key-ordered, and the ids are exactly
the ids of the sorted records. (Amended from the claim: remaining ties
keep registry insertion order, not processor-id order.) -/
theorem C6_chain_sorted_by_key (processors : Registry) (failed_processor : String) :
    (get_fallback_chain_procs processors failed_processor).Pairwise
      (fun p q => sortKeyLE p q = true) ∧
    get_fallback_chain processors failed_processor =
      (get_fallback_chain_procs processors failed_processor).map (fun p => p.id) := by
  refine ⟨?_, rfl⟩
  exact sortStable_pairwise sortKeyLE sortKeyLE_total
    (fun a b c => sortKeyLE_trans a b c) _

/-- C6 counterexample: two processors sharing the whole sort key come
out in registration order `["b", "a"]`, not in the id order
`["a", "b"]` that the spec's id tie-break dictates. -/
theorem C6_tie_not_broken_by_id :
    get_fallback_chain tieRegistry "none" ≠ get_fallback_chain_spec tieRegistry "none" ∧
    get_fallback_chain tieRegistry "none" = ["b", "a"] ∧
    get_fallback_chain_spec tieRegistry "none" = ["a", "b"] := by
  have h₁ : get_fallback_chain tieRegistry "none" = ["b", "a"] := by decide
  have h₂ : get_fallback_chain_spec tieRegistry "none" = ["a", "b"] := by decide
  refine ⟨?_, h₁, h₂⟩
  rw [h₁, h₂]
  decide

theorem filter_eq_cons_split (p : α → Bool) (l : List α) (y : α) (ys : List α)
    (h : l.filter p = y :: ys) :
    ∃ pre suf, l = pre ++ y :: suf ∧ (∀ x ∈ pre, p x = false) ∧ p y = true := by
  induction l with
  | nil => simp at h
  | cons a as ih =>
    by_cases hpa : p a = true
    · rw [List.filter_cons_of_pos hpa] at h
      have h₁ : a = y := (List.cons_eq_cons.mp h).1
      exact ⟨[], as, by rw [h₁]; rfl, by simp, h₁ ▸ hpa⟩
    · rw [List.filter_cons_of_neg hpa] at h
      obtain ⟨pre, suf, heq, hpre, hy⟩ := ih h
      refine ⟨a :: pre, suf, by rw [heq]; rfl, ?_, hy⟩
      intro x hx
      rcases List.mem_cons.mp hx with hxa | hx'
      · rw [hxa]
        cases hb : p a
        · rfl
        · exact absurd hb hpa
      · exact hpre x hx'

/-- C2. When the oracle call fails, `route_payment_with_fallback` still
returns a decision (the error is absorbed, not propagated), of type
EMERGENCY, and its selected processor is the first (lowest-indexed)
entry of the fixed candidate list that is not in the failed set —
`"stripe"` as last resort when every candidate has failed. (Amended
from the claim: the confidence is 0.6, not 0.5, and the selection
ignores processor health entirely.) -/
theorem C2_oracle_failure_degrades (routing_context : RoutingContext)
    (reasoning_effort verbosity error : String) :
    (route_payment_with_fallback routing_context reasoning_effort verbosity
        (Except.error error)).decision_type = RoutingDecisionType.emergency ∧
    (route_payment_with_fallback routing_context reasoning_effort verbosity
        (Except.error error)).confidence_score = 6/10 ∧
    (((route_payment_with_fallback routing_context reasoning_effort verbosity
          (Except.error error)).selected_processor = "stripe" ∧
        ∀ p ∈ ["stripe", "paypal", "visa", "square"],
          p ∈ routing_context.failed_processors) ∨
      (∃ pre suf, ["stripe", "paypal", "visa", "square"] =
          pre ++ (route_payment_with_fallback routing_context reasoning_effort verbosity
            (Except.error error)).selected_processor :: suf ∧
        (route_payment_with_fallback routing_context reasoning_effort verbosity
          (Except.error error)).selected_processor ∉ routing_context.failed_processors ∧
        ∀ p ∈ pre, p ∈ routing_context.failed_processors)) := by
  refine ⟨rfl, rfl, ?_⟩
  have hsel : (route_payment_with_fallback routing_context reasoning_effort verbosity
      (Except.error error)).selected_processor =
      (match List.filter (fun p => decide (p ∉ routing_context.failed_processors))
          ["stripe", "paypal", "visa", "square"] with
        | [] => "stripe"
        | p :: _ => p) := rfl
  rw [hsel]
  cases havail : List.filter (fun p => decide (p ∉ routing_context.failed_processors))
      ["stripe", "paypal", "visa", "square"] with
  | nil =>
    left
    rw [List.filter_eq_nil_iff] at havail
    refine ⟨rfl, ?_⟩
    intro p hp
    have := havail p hp
    simpa using this
  | cons y ys =>
    right
    obtain ⟨pre, suf, heq, hpre, hy⟩ := filter_eq_cons_split _ _ _ _ havail
    refine ⟨pre, suf, ?_, ?_, ?_⟩
    · simpa using heq
    · simpa using hy
    · intro p hp
      have := hpre p hp
      simpa using this

/-- C2 witness: the theorem applied at the context with PayPal failed;
the emergency decision picks `"stripe"`, the lowest-indexed non-failed
candidate. -/
theorem C2_oracle_failure_degrades_witness :
    (route_payment_with_fallback contextPaypalFailed "medium" "medium"
        (Except.error "timeout")).decision_type = RoutingDecisionType.emergency ∧
    (route_payment_with_fallback contextPaypalFailed "medium" "medium"
        (Except.error "timeout")).confidence_score = 6/10 ∧
    (((route_payment_with_fallback contextPaypalFailed "medium" "medium"
          (Except.error "timeout")).selected_processor = "stripe" ∧
        ∀ p ∈ ["stripe", "paypal", "visa", "square"],
          p ∈ contextPaypalFailed.failed_processors) ∨
      (∃ pre suf, ["stripe", "paypal", "visa", "square"] =
          pre ++ (route_payment_with_fallback contextPaypalFailed "medium" "medium"
            (Except.error "timeout")).selected_processor :: suf ∧
        (route_payment_with_fallback contextPaypalFailed "medium" "medium"
          (Except.error "timeout")).selected_processor ∉ contextPaypalFailed.failed_processors ∧
        ∀ p ∈ pre, p ∈ contextPaypalFailed.failed_processors)) :=
  C2_oracle_failure_degrades contextPaypalFailed "medium" "medium" "timeout"

/-- C2 counterexample: at a concrete failed oracle call the returned
confidence is 0.6, so the claim's required confidence of 0.5 is false
on the code. -/
theorem C2_confidence_is_not_half :
    (route_payment_with_fallback contextNoFailures "medium" "medium"
        (Except.error "timeout")).confidence_score = 6/10 ∧
    ¬ ((6 : ℚ)/10 = 1/2) := by
  constructor
  · rfl
  · norm_num

theorem containsSub_of_startsWith (pat l : List Char)
    (h : startsWithChars pat l = true) : containsSub pat l = true := by
  cases l with
  | nil => simpa [containsSub] using h
  | cons c cs => simp [containsSub, h]

theorem containsSub_cons (pat : List Char) (c : Char) (l : List Char)
    (h : containsSub pat l = true) : containsSub pat (c :: l) = true := by
  simp [containsSub, h]

theorem containsSub_drop (pat : List Char) (l : List Char) (n : ℕ)
    (h : containsSub pat (l.drop n) = true) : containsSub pat l = true := by
  induction l generalizing n with
  | nil => simpa using h
  | cons c cs ih =>
    cases n with
    | zero => simpa using h
    | succ m => exact containsSub_cons _ _ _ (ih m h)

theorem containsSub_tail (pat : List Char) (l : List Char)
    (h : containsSub pat l.tail = true) : containsSub pat l = true := by
  cases l with
  | nil => simpa using h
  | cons c cs => exact containsSub_cons _ _ _ h

theorem containsSub_dropWhile (pat : List Char) (f : Char → Bool) (l : List Char)
    (h : containsSub pat (l.dropWhile f) = true) : containsSub pat l = true := by
  induction l with
  | nil => simpa using h
  | cons c cs ih =>
    by_cases hf : f c = true
    · rw [List.dropWhile_cons_of_pos hf] at h
      exact containsSub_cons _ _ _ (ih h)
    · rw [List.dropWhile_cons_of_neg hf] at h
      exact h

theorem startsWithChars_takeWhile (f : Char → Bool) (l : List Char) :
    startsWithChars (l.takeWhile f) l = true := by
  induction l with
  | nil => rfl
  | cons c cs ih =>
    by_cases hf : f c = true
    · rw [List.takeWhile_cons_of_pos hf]
      simp [startsWithChars, ih]
    · rw [List.takeWhile_cons_of_neg hf]
      rfl

theorem takeWhile_dropWhile_containsSub (f g : Char → Bool) (t : List Char) :
    containsSub ((t.dropWhile g).takeWhile f) t = true :=
  containsSub_dropWhile _ _ _
    (containsSub_of_startsWith _ _ (startsWithChars_takeWhile _ _))

theorem matchSelectedAt_containsSub (s w : List Char)
    (h : matchSelectedAt s = some w) : containsSub w s = true := by
  simp only [matchSelectedAt] at h
  by_cases hs : startsWithChars "selected processor".toList s = true
  · rw [if_pos hs] at h
    by_cases hcolon : (s.drop "selected processor".toList.length).head? = some ':'
    · rw [if_pos hcolon] at h
      by_cases hw : (((s.drop "selected processor".toList.length).tail.dropWhile
          isSpaceChar).takeWhile isWordChar).isEmpty = true
      · rw [if_pos hw] at h
        exact absurd h (by simp)
      · rw [if_neg hw] at h
        rw [← Option.some.inj h]
        exact containsSub_drop _ _ _ (containsSub_tail _ _
          (takeWhile_dropWhile_containsSub _ _ _))
    · rw [if_neg hcolon] at h
      by_cases hw : (((s.drop "selected processor".toList.length).dropWhile
          isSpaceChar).takeWhile isWordChar).isEmpty = true
      · rw [if_pos hw] at h
        exact absurd h (by simp)
      · rw [if_neg hw] at h
        rw [← Option.some.inj h]
        exact containsSub_drop _ _ _ (takeWhile_dropWhile_containsSub _ _ _)
  · rw [if_neg hs] at h
    exact absurd h (by simp)

theorem searchSelected_containsSub (l w : List Char)
    (h : searchSelected l = some w) : containsSub w l = true := by
  induction l with
  | nil => simp [searchSelected] at h
  | cons c cs ih =>
    rw [searchSelected] at h
    cases hm : matchSelectedAt (c :: cs) with
    | some w' =>
      rw [hm] at h
      have := Option.some.inj h
      rw [← this]
      exact matchSelectedAt_containsSub _ _ hm
    | none =>
      rw [hm] at h
      exact containsSub_cons _ _ _ (ih h)

theorem extract_selected_processor_mem (response : String) :
    extract_selected_processor response ∈ processors_list := by
  simp only [extract_selected_processor]
  split
  · split
    · rename_i hmem
      exact hmem
    · split
      · rename_i hf
        exact List.mem_of_find?_eq_some hf
      · simp [processors_list]
  · split
    · rename_i hf
      exact List.mem_of_find?_eq_some hf
    · simp [processors_list]

/-- C9. The oracle-response parser is total: for every input string it
returns an element of the fixed list `["stripe", "paypal", "visa",
"square"]`, and when no processor name of that list occurs in the
lowercased text, it returns the default `"stripe"`. -/
theorem C9_extract_selected_total (response : String) :
    extract_selected_processor response ∈ processors_list ∧
    ((∀ p ∈ processors_list,
        containsSub p.toList (response.toList.map Char.toLower) = false) →
      extract_selected_processor response = "stripe") := by
  refine ⟨extract_selected_processor_mem response, ?_⟩
  intro hno
  have hfind : (processors_list.find?
      (fun p => containsSub p.toList (response.toList.map Char.toLower))) = none := by
    rw [List.find?_eq_none]
    intro p hp
    simp only [Bool.not_eq_true]
    exact hno p hp
  simp only [extract_selected_processor]
  split
  · rename_i selected hsearch
    split
    · rename_i hmem
      exfalso
      have hocc : containsSub selected (response.toList.map Char.toLower) = true :=
        searchSelected_containsSub _ _ hsearch
      have hfalse := hno (String.mk selected) hmem
      rw [show (String.mk selected).toList = selected from rfl] at hfalse
      rw [hfalse] at hocc
      exact Bool.false_ne_true hocc
    · rw [hfind]
  · rw [hfind]

/-- C9 witness: a response naming no processor parses to `"stripe"`,
and the parsed value is in the fixed list. -/
theorem C9_extract_selected_total_witness :
    extract_selected_processor "The weather is nice" ∈ processors_list ∧
    extract_selected_processor "The weather is nice" = "stripe" :=
  ⟨(C9_extract_selected_total "The weather is nice").1,
    (C9_extract_selected_total "The weather is nice").2 (by decide)⟩

/-- C3. What the parser actually guarantees: the selected processor of
a parsed routing decision is always a member of the fixed list
`["stripe", "paypal", "visa", "square"]`. (Amended from the claim: the
parser performs no validation against the processor snapshot, the
Frozen/Maintenance statuses, or the context's failed set.) -/
theorem C3_parsed_selection_in_fixed_list (raw_response : String)
    (routing_context : RoutingContext) (reasoning_effort verbosity : String)
    (decision_type : RoutingDecisionType) (processing_time tokens_used : ℕ) :
    (parse_routing_decision raw_response routing_context reasoning_effort verbosity
      decision_type processing_time tokens_used).selected_processor ∈ processors_list :=
  extract_selected_processor_mem raw_response

/-- C3 counterexample: a raw response naming the already-failed
processor parses to that processor — the parsed id is inside the
context's failed set, so the claimed validation does not happen. -/
theorem C3_selection_can_be_failed :
    (parse_routing_decision "paypal" contextPaypalFailed "medium" "medium"
      RoutingDecisionType.fallback 0 0).selected_processor = "paypal" ∧
    "paypal" ∈ contextPaypalFailed.failed_processors := by
  constructor
  · rfl
  · simp [contextPaypalFailed]

theorem try_fallback_chain_sublist (chain : List String)
    (status : String → BaseProcessorStatus) (execute : String → PaymentStatus)
    (recorded : List String) :
    List.Sublist ((try_fallback_chain chain status execute recorded).map
      (fun r => r.processor)) chain := by
  induction chain with
  | nil => simp [try_fallback_chain]
  | cons fallback_id rest ih =>
    simp only [try_fallback_chain]
    by_cases hcond : (decide (fallback_id ∈ processor_ids) &&
        decide (status fallback_id = BaseProcessorStatus.active)) = true
    · rw [if_pos hcond]
      by_cases hresp : execute fallback_id = PaymentStatus.success
      · rw [if_pos hresp]
        simp only [List.map_cons, List.map_nil]
        exact (List.nil_sublist rest).cons₂ fallback_id
      · rw [if_neg hresp]
        simp only [List.map_cons]
        exact ih.cons₂ fallback_id
    · rw [if_neg hcond]
      exact ih.cons fallback_id

theorem try_fallback_chain_length_le (chain : List String)
    (status : String → BaseProcessorStatus) (execute : String → PaymentStatus)
    (recorded : List String) :
    (try_fallback_chain chain status execute recorded).length ≤ chain.length := by
  have h := (try_fallback_chain_sublist chain status execute recorded).length_le
  rwa [List.length_map] at h

theorem generate_fallback_chain_nodup_not_mem (primary : String) (amount : ℚ) :
    (IntelligentRouter.generate_fallback_chain primary amount).Nodup ∧
    primary ∉ IntelligentRouter.generate_fallback_chain primary amount := by
  have hbase : ((["stripe", "paypal", "visa"] : List String).filter
      (fun p => decide (p ≠ primary))).Nodup :=
    (by decide : (["stripe", "paypal", "visa"] : List String).Nodup).filter _
  have hmem : primary ∉ (["stripe", "paypal", "visa"] : List String).filter
      (fun p => decide (p ≠ primary)) := by
    intro h
    have := (List.mem_filter.mp h).2
    simp at this
  simp only [IntelligentRouter.generate_fallback_chain]
  by_cases ha : (1000 : ℚ) < amount
  · rw [if_pos ha]
    refine ⟨(sortStable_perm _ _).nodup_iff.mpr hbase, ?_⟩
    intro h
    exact hmem ((sortStable_perm _ _).mem_iff.mp h)
  · rw [if_neg ha]
    exact ⟨hbase, hmem⟩

theorem select_best_processor_mem (processors : List ProcessorInfo)
    (failed_ids : List String)
    (hids : ∀ p ∈ processors, p.id ∈ processor_ids) :
    select_best_processor processors failed_ids ∈ processor_ids := by
  simp only [select_best_processor]
  cases hs : sortStable bestProcessorLE
      (if (processors.filter (fun p => decide (p.id ∉ failed_ids))).isEmpty then processors
       else processors.filter (fun p => decide (p.id ∉ failed_ids))) with
  | nil => simp [processor_ids]
  | cons p rest =>
    have hmem : p ∈ sortStable bestProcessorLE
        (if (processors.filter (fun p => decide (p.id ∉ failed_ids))).isEmpty then processors
         else processors.filter (fun p => decide (p.id ∉ failed_ids))) := by
      rw [hs]
      exact List.mem_cons_self _ _
    have hmem₂ := (sortStable_perm bestProcessorLE _).mem_iff.mp hmem
    have hp : p ∈ processors := by
      by_cases he : (processors.filter (fun p => decide (p.id ∉ failed_ids))).isEmpty = true
      · rw [if_pos he] at hmem₂
        exact hmem₂
      · rw [if_neg he] at hmem₂
        exact List.mem_of_mem_filter hmem₂
    exact hids p hp

theorem attempts_distinct_of_generated_chain (selected_processor : String) (amount : ℚ)
    (status : String → BaseProcessorStatus) (execute : String → PaymentStatus)
    (hsel : selected_processor ∈ processor_ids) :
    ((process_payment_attempts selected_processor
        (IntelligentRouter.generate_fallback_chain selected_processor amount)
        status execute).map (fun r => r.processor)).Nodup := by
  simp only [process_payment_attempts, if_pos hsel]
  by_cases hresp : execute selected_processor = PaymentStatus.failed ∨
      execute selected_processor = PaymentStatus.timeout
  · rw [if_pos hresp]
    simp only [List.map_cons]
    rw [List.nodup_cons]
    have hsub := try_fallback_chain_sublist
      (IntelligentRouter.generate_fallback_chain selected_processor amount)
      status execute [selected_processor]
    obtain ⟨hnd, hnm⟩ := generate_fallback_chain_nodup_not_mem selected_processor amount
    exact ⟨fun h => hnm (hsub.subset h), hnd.sublist hsub⟩
  · rw [if_neg hresp]
    simp

/-- C4. When the oracle takes its normal (non-frozen) branch, no
processor is executed against twice in one `process_payment` call: the
selected processor's generated fallback chain excludes it, so the
primary and fallback attempts hit pairwise distinct processors.
(Amended from the claim: in the frozen-primary branch the oracle's
hard-coded chain `["paypal", "visa"]` contains the selected processor,
so a failed PayPal primary is re-executed against PayPal; and the
recorded failure set grows only at the primary failure — fallback
failures are never recorded.) -/
theorem C4_attempts_pairwise_distinct (processors : List ProcessorInfo)
    (failed_ids : List String) (amount : ℚ)
    (status : String → BaseProcessorStatus) (execute : String → PaymentStatus)
    (hids : ∀ p ∈ processors, p.id ∈ processor_ids) :
    ((process_payment_attempts
        (IntelligentRouter.call_gpt5_reasoning processors failed_ids false amount).selected_processor
        (IntelligentRouter.call_gpt5_reasoning processors failed_ids false amount).fallback_chain
        status execute).map (fun r => r.processor)).Nodup := by
  have hd : IntelligentRouter.call_gpt5_reasoning processors failed_ids false amount =
      { selected_processor := IntelligentRouter.select_best_processor processors failed_ids,
        confidence := 85/100,
        fallback_chain := IntelligentRouter.generate_fallback_chain
          (IntelligentRouter.select_best_processor processors failed_ids) amount } := rfl
  rw [hd]
  exact attempts_distinct_of_generated_chain _ amount status execute
    (select_best_processor_mem processors failed_ids hids)

/-- C4 witness: the theorem applied to the initial processor list of
the app, no recent failures, and a run in which every processor is
ACTIVE and every execution fails. -/
theorem C4_attempts_pairwise_distinct_witness :
    ((process_payment_attempts
        (IntelligentRouter.call_gpt5_reasoning IntelligentRouter.mainProcessorInfos [] false 50).selected_processor
        (IntelligentRouter.call_gpt5_reasoning IntelligentRouter.mainProcessorInfos [] false 50).fallback_chain
        (fun _ => BaseProcessorStatus.active)
        (fun _ => PaymentStatus.failed)).map (fun r => r.processor)).Nodup :=
  C4_attempts_pairwise_distinct IntelligentRouter.mainProcessorInfos [] 50 _ _ (by decide)

/-- C4 counterexample: with the primary frozen the oracle returns
PayPal with the hard-coded chain `["paypal", "visa"]`, which contains
the selected processor; when every execution fails, `process_payment`
executes PayPal twice (so the attempts are not pairwise distinct), and
the recorded failure set never grows past the primary failure. -/
theorem C4_frozen_retry_and_unrecorded_failures :
    (IntelligentRouter.call_gpt5_reasoning
      IntelligentRouter.mainProcessorInfos [] true 100).selected_processor = "paypal" ∧
    (IntelligentRouter.call_gpt5_reasoning
      IntelligentRouter.mainProcessorInfos [] true 100).fallback_chain = ["paypal", "visa"] ∧
    ((process_payment_attempts
        (IntelligentRouter.call_gpt5_reasoning
          IntelligentRouter.mainProcessorInfos [] true 100).selected_processor
        (IntelligentRouter.call_gpt5_reasoning
          IntelligentRouter.mainProcessorInfos [] true 100).fallback_chain
        (fun _ => BaseProcessorStatus.active)
        (fun _ => PaymentStatus.failed)).map (fun r => r.processor)) =
      ["paypal", "paypal", "visa"] ∧
    ¬ (["paypal", "paypal", "visa"] : List String).Nodup ∧
    failedSetStrictlyGrows (process_payment_attempts
        (IntelligentRouter.call_gpt5_reasoning
          IntelligentRouter.mainProcessorInfos [] true 100).selected_processor
        (IntelligentRouter.call_gpt5_reasoning
          IntelligentRouter.mainProcessorInfos [] true 100).fallback_chain
        (fun _ => BaseProcessorStatus.active)
        (fun _ => PaymentStatus.failed)) = false := by
  refine ⟨rfl, rfl, ?_, ?_, ?_⟩ <;> decide

theorem generate_fallback_chain_length_le (primary : String) (amount : ℚ)
    (hmem : primary ∈ processor_ids) :
    (IntelligentRouter.generate_fallback_chain primary amount).length ≤ 2 := by
  have hflen : ((["stripe", "paypal", "visa"] : List String).filter
      (fun p => decide (p ≠ primary))).length ≤ 2 := by
    simp only [processor_ids, List.mem_cons, List.not_mem_nil, or_false] at hmem
    rcases hmem with h | h | h <;> rw [h] <;> decide
  simp only [IntelligentRouter.generate_fallback_chain]
  by_cases ha : (1000 : ℚ) < amount
  · rw [if_pos ha, length_sortStable]
    exact hflen
  · rw [if_neg ha]
    exact hflen

theorem process_payment_attempts_length_le (selected_processor : String)
    (chain : List String) (status : String → BaseProcessorStatus)
    (execute : String → PaymentStatus) :
    (process_payment_attempts selected_processor chain status execute).length ≤
      chain.length + 1 := by
  simp only [process_payment_attempts]
  by_cases hresp :
      execute (if selected_processor ∈ processor_ids then selected_processor else "stripe") =
        PaymentStatus.failed ∨
      execute (if selected_processor ∈ processor_ids then selected_processor else "stripe") =
        PaymentStatus.timeout
  · rw [if_pos hresp]
    simp only [List.length_cons]
    have h := try_fallback_chain_length_le chain status execute [selected_processor]
    omega
  · rw [if_neg hresp]
    simp

/-- C5. For every routing decision the simulated oracle can produce —
both its normal branch and the two hard-coded frozen-primary
branches — one `process_payment` call issues at most 3
payment-execution attempts (the primary plus a fallback chain of
length at most 2), and the loop terminates because the chain is
finite. -/
theorem C5_attempt_bound (processors : List ProcessorInfo) (failed_ids : List String)
    (primary_processor_frozen : Bool) (amount : ℚ)
    (status : String → BaseProcessorStatus) (execute : String → PaymentStatus)
    (hids : ∀ p ∈ processors, p.id ∈ processor_ids) :
    (process_payment_attempts
      (IntelligentRouter.call_gpt5_reasoning processors failed_ids
        primary_processor_frozen amount).selected_processor
      (IntelligentRouter.call_gpt5_reasoning processors failed_ids
        primary_processor_frozen amount).fallback_chain
      status execute).length ≤ 3 := by
  have hchain : (IntelligentRouter.call_gpt5_reasoning processors failed_ids
      primary_processor_frozen amount).fallback_chain.length ≤ 2 := by
    cases primary_processor_frozen with
    | true =>
      have hform : IntelligentRouter.call_gpt5_reasoning processors failed_ids true amount =
          (if "paypal" ∈ processors.map (fun p => p.id) then
            ({ selected_processor := "paypal", confidence := 95/100,
               fallback_chain := ["paypal", "visa"] } : IntelligentRouter.RoutingDecision)
          else
            { selected_processor := "visa", confidence := 9/10,
              fallback_chain := ["visa"] }) := rfl
      rw [hform]
      by_cases hp : "paypal" ∈ processors.map (fun p => p.id)
      · rw [if_pos hp]
        simp
      · rw [if_neg hp]
        simp
    | false =>
      have hform : IntelligentRouter.call_gpt5_reasoning processors failed_ids false amount =
          { selected_processor := IntelligentRouter.select_best_processor processors failed_ids,
            confidence := 85/100,
            fallback_chain := IntelligentRouter.generate_fallback_chain
              (IntelligentRouter.select_best_processor processors failed_ids) amount } := rfl
      rw [hform]
      exact generate_fallback_chain_length_le _ amount
        (select_best_processor_mem processors failed_ids hids)
  have hlen := process_payment_attempts_length_le
    (IntelligentRouter.call_gpt5_reasoning processors failed_ids
      primary_processor_frozen amount).selected_processor
    (IntelligentRouter.call_gpt5_reasoning processors failed_ids
      primary_processor_frozen amount).fallback_chain
    status execute
  omega

/-- C5 witness: the bound applied to the frozen-primary decision on the
app's initial processor list, with every execution failing; the trace
has exactly 3 attempts. -/
theorem C5_attempt_bound_witness :
    (process_payment_attempts
      (IntelligentRouter.call_gpt5_reasoning
        IntelligentRouter.mainProcessorInfos [] true 50).selected_processor
      (IntelligentRouter.call_gpt5_reasoning
        IntelligentRouter.mainProcessorInfos [] true 50).fallback_chain
      (fun _ => BaseProcessorStatus.active)
      (fun _ => PaymentStatus.failed)).length ≤ 3 :=
  C5_attempt_bound IntelligentRouter.mainProcessorInfos [] true 50 _ _ (by decide)

theorem effortRank_le_three (e : ReasoningEffort) : effortRank e ≤ 3 := by
  cases e <;> simp [effortRank]

theorem determine_reasoning_effort_eq (context : PaymentContext) :
    determine_reasoning_effort context =
      effort_of_amount_urgency_failures context.amount context.urgency
        context.failed_processors.length := by
  simp only [determine_reasoning_effort, effort_of_amount_urgency_failures,
    List.length_eq_zero]

theorem effort_of_ge_two (amount : ℚ) (urgency : DecisionUrgency) (n : ℕ) (h : 1 < n) :
    effort_of_amount_urgency_failures amount urgency n = ReasoningEffort.high := by
  have h₁ : ¬(urgency = DecisionUrgency.routine ∧ n = 0) := fun hc => by omega
  have h₂ : ¬(amount < 500 ∧ n ≤ 1) := fun hc => by omega
  rw [effort_of_amount_urgency_failures, if_neg h₁, if_neg h₂,
    if_pos (Or.inr (Or.inl h))]

theorem effort_of_monotone (amount : ℚ) (urgency : DecisionUrgency) (n₁ n₂ : ℕ)
    (h : n₁ ≤ n₂) :
    effortRank (effort_of_amount_urgency_failures amount urgency n₁) ≤
    effortRank (effort_of_amount_urgency_failures amount urgency n₂) := by
  by_cases h₂ : 1 < n₂
  · rw [effort_of_ge_two amount urgency n₂ h₂]
    exact effortRank_le_three _
  · have hn₂ : n₂ ≤ 1 := by omega
    interval_cases n₂ <;> interval_cases n₁
    · exact le_refl _
    · by_cases hu : urgency = DecisionUrgency.routine
      · rw [show effort_of_amount_urgency_failures amount urgency 0 =
            ReasoningEffort.minimal from by
          rw [effort_of_amount_urgency_failures, if_pos ⟨hu, rfl⟩]]
        exact Nat.zero_le _
      · have heq : effort_of_amount_urgency_failures amount urgency 0 =
            effort_of_amount_urgency_failures amount urgency 1 := by
          unfold effort_of_amount_urgency_failures
          simp [hu]
        rw [heq]
    · exact le_refl _

/-- C7. With urgency and every other field held fixed, enlarging the
failed-processor list never decreases the reasoning effort chosen by
the escalation policy. (Amended from the claim: the claim's weaker
premise "urgency not decreased" is false on the code, because the
policy escalates to high on ELEVATED urgency but not on CRITICAL, so
raising urgency from elevated to critical can lower the effort.) -/
theorem C7_escalation_monotone_in_failures (amount : ℚ) (urgency : DecisionUrgency)
    (f₁ f₂ : List String) (hlen : f₁.length ≤ f₂.length) :
    effortRank (determine_reasoning_effort
        { amount := amount, urgency := urgency, failed_processors := f₁ }) ≤
    effortRank (determine_reasoning_effort
        { amount := amount, urgency := urgency, failed_processors := f₂ }) := by
  rw [determine_reasoning_effort_eq, determine_reasoning_effort_eq]
  exact effort_of_monotone amount urgency _ _ hlen

/-- C7 witness: the monotonicity theorem applied at amount 100, normal
urgency, and the failed lists `[]` and `["stripe"]`. -/
theorem C7_escalation_monotone_in_failures_witness :
    effortRank (determine_reasoning_effort
        { amount := 100, urgency := DecisionUrgency.normal, failed_processors := [] }) ≤
    effortRank (determine_reasoning_effort
        { amount := 100, urgency := DecisionUrgency.normal,
          failed_processors := ["stripe"] }) :=
  C7_escalation_monotone_in_failures 100 DecisionUrgency.normal [] ["stripe"] (by decide)

/-- C7 counterexample: the claim as stated (failed set enlarged,
urgency not decreased) is false — at fixed amount 1000, going from
elevated urgency with no failures to critical urgency with one failure
drops the effort from high to medium. -/
theorem C7_escalation_drops_on_critical :
    determine_reasoning_effort contextElevated = ReasoningEffort.high ∧
    determine_reasoning_effort contextCriticalOneFailure = ReasoningEffort.medium ∧
    contextElevated.failed_processors ⊆ contextCriticalOneFailure.failed_processors ∧
    contextElevated.amount = contextCriticalOneFailure.amount ∧
    urgencyRank contextElevated.urgency ≤ urgencyRank contextCriticalOneFailure.urgency ∧
    effortRank (determine_reasoning_effort contextCriticalOneFailure) <
      effortRank (determine_reasoning_effort contextElevated) := by
  refine ⟨by decide, by decide, ?_, by decide, by decide, by decide⟩
  simp [contextElevated, contextCriticalOneFailure]

theorem timestampLE_total (a b : AuditEvent) :
    timestampLE a b = true ∨ timestampLE b a = true := by
  simp only [timestampLE, decide_eq_true_eq]
  exact le_total a.timestamp b.timestamp

theorem timestampLE_trans (a b c : AuditEvent) (h₁ : timestampLE a b = true)
    (h₂ : timestampLE b c = true) : timestampLE a c = true := by
  simp only [timestampLE, decide_eq_true_eq] at h₁ h₂ ⊢
  exact le_trans h₁ h₂

/-- C8. Logging a fresh decision event for a payment makes it appear
exactly once in that payment's audit timeline, and the timeline is
sorted by timestamp ascending. -/
theorem C8_trail_complete_and_sorted (events : List AuditEvent) (e : AuditEvent)
    (pid : String) (hpid : e.payment_id = some pid) (hfresh : e ∉ events) :
    ∃ timeline,
      generate_payment_audit_trail (log_event events e) pid = some timeline ∧
      timeline.count e = 1 ∧
      timeline.Pairwise (fun a b => a.timestamp ≤ b.timestamp) := by
  have hpes : payment_events (log_event events e) pid =
      payment_events events pid ++ [e] := by
    simp only [payment_events, log_event, List.filter_append]
    congr 1
    simp [hpid]
  refine ⟨sortStable timestampLE (payment_events (log_event events e) pid), ?_, ?_, ?_⟩
  · simp only [generate_payment_audit_trail, hpes]
    rw [if_neg (by simp)]
  · rw [(sortStable_perm timestampLE _).count_eq, hpes, List.count_append]
    have h0 : (payment_events events pid).count e = 0 := by
      rw [List.count_eq_zero]
      exact fun hmem => hfresh (List.mem_of_mem_filter hmem)
    rw [h0]
    simp
  · refine List.Pairwise.imp ?_
      (sortStable_pairwise timestampLE timestampLE_total timestampLE_trans _)
    intro a b hab
    simpa [timestampLE] using hab

/-- C8 witness: logging the routing-decision event after an earlier
failure event yields a trail containing the decision exactly once, in
timestamp order. -/
theorem C8_trail_complete_and_sorted_witness :
    ∃ timeline,
      generate_payment_audit_trail (log_event [sampleFailureEvent] sampleDecisionEvent)
        "pay_demo_001" = some timeline ∧
      timeline.count sampleDecisionEvent = 1 ∧
      timeline.Pairwise (fun a b => a.timestamp ≤ b.timestamp) :=
  C8_trail_complete_and_sorted [sampleFailureEvent] sampleDecisionEvent "pay_demo_001"
    rfl (by decide)

/-- C10. `record_success` is a frame-preserving update: an unknown id
leaves the health map unchanged; for any other key the entry is
untouched; for the recorded id only `last_success` and `failure_count`
change (to the current time and 0), the `frozen` flag being carried
over unchanged. -/
theorem C10_record_success_frame (processor_health : HealthMap) (processor_id : String)
    (now : ℚ) :
    ((∀ kv ∈ processor_health, kv.1 ≠ processor_id) →
      record_success processor_health processor_id now = processor_health) ∧
    (∀ k, k ≠ processor_id →
      (record_success processor_health processor_id now).lookup k =
        processor_health.lookup k) ∧
    (∀ h, processor_health.lookup processor_id = some h →
      (record_success processor_health processor_id now).lookup processor_id =
        some { h with last_success := some now, failure_count := 0 }) := by
  refine ⟨?_, ?_, ?_⟩
  · induction processor_health with
    | nil => intro _; rfl
    | cons kv rest ih =>
      intro hall
      simp only [record_success, List.map_cons]
      rw [if_neg (hall kv (List.mem_cons_self kv rest))]
      have hrest := ih (fun kv' hkv' => hall kv' (List.mem_cons_of_mem _ hkv'))
      simp only [record_success] at hrest
      rw [hrest]
  · intro k hk
    induction processor_health with
    | nil => rfl
    | cons kv rest ih =>
      obtain ⟨k₀, v₀⟩ := kv
      simp only [record_success, List.map_cons]
      by_cases hkv : k₀ = processor_id
      · rw [if_pos (by simpa using hkv)]
        have hne : (k == k₀) = false := by
          simp only [beq_eq_false_iff_ne, ne_eq]
          intro hkk
          exact hk (hkk.trans hkv)
        simp only [List.lookup, hne]
        simpa [record_success] using ih
      · rw [if_neg (by simpa using hkv)]
        by_cases hkk : k = k₀
        · simp only [List.lookup, hkk]
          simp
        · have hne : (k == k₀) = false := by simpa using hkk
          simp only [List.lookup, hne]
          simpa [record_success] using ih
  · intro h
    induction processor_health with
    | nil => intro hc; simp [List.lookup] at hc
    | cons kv rest ih =>
      obtain ⟨k₀, v₀⟩ := kv
      intro hlook
      simp only [record_success, List.map_cons]
      by_cases hkv : k₀ = processor_id
      · rw [if_pos (by simpa using hkv)]
        have hbe : (processor_id == k₀) = true := by simpa using hkv.symm
        simp only [List.lookup, hbe] at hlook ⊢
        have : v₀ = h := Option.some.inj hlook
        rw [this]
      · rw [if_neg (by simpa using hkv)]
        have hbe : (processor_id == k₀) = false := by
          simp only [beq_eq_false_iff_ne, ne_eq]
          exact fun hc => hkv hc.symm
        simp only [List.lookup, hbe] at hlook ⊢
        have := ih hlook
        simpa [record_success] using this

/-- C10 witness: on the initial health map, an unknown id is a no-op,
recording Stripe leaves PayPal's entry unchanged, and Stripe's entry
keeps `frozen = false` while gaining the timestamp and a zero failure
count. -/
theorem C10_record_success_frame_witness :
    record_success initial_health "unknown" 7 = initial_health ∧
    (record_success initial_health "stripe" 7).lookup "paypal" =
      initial_health.lookup "paypal" ∧
    (record_success initial_health "stripe" 7).lookup "stripe" =
      some { frozen := false, last_success := some 7, failure_count := 0 } :=
  ⟨(C10_record_success_frame initial_health "unknown" 7).1 (by decide),
   (C10_record_success_frame initial_health "stripe" 7).2.1 "paypal" (by decide),
   (C10_record_success_frame initial_health "stripe" 7).2.2
     { frozen := false, last_success := none, failure_count := 0 } (by decide)⟩
